import Mathlib

/-!
Verification of the typing-banner video generator (`video_generator.py`).

Frames are modelled as SVG markup, i.e. lists of characters (`Markup`).
Python f-string interpolation becomes list concatenation, and interpolated
integers are rendered with `Nat.toDigits 10` (the decimal digit list).
Rasterization (`cairosvg.svg2png`) and video encoding (`imageio`) are
external I/O: per-call success or failure of rasterization is modelled by
boolean oracles supplied to `typing_to_mp4`, and the function returns the
ordered frame sequence (as markup) together with the output path instead of
performing the encoding.  `str.replace("█", "")` with its one-character
pattern is modelled as filtering out that character.
-/

namespace TCorpion

/-- A fragment of SVG markup, as the list of its characters. -/
abbrev Markup := List Char

/-- Characters of a Lean string literal (Python string literal). -/
def str (s : String) : Markup := s.toList

/-- Decimal rendering of a natural number, as interpolated by an f-string. -/
def natStr (n : Nat) : Markup := Nat.toDigits 10 n

/-- `VIDEO_WIDTH = 1920` in `video_generator.py`. -/
def VIDEO_WIDTH : Nat := 1920

/-- `VIDEO_HEIGHT = 1080` in `video_generator.py`. -/
def VIDEO_HEIGHT : Nat := 1080

/-- `FONT_SIZE = 72` in `video_generator.py`. -/
def FONT_SIZE : Nat := 72

/-- Resolution of the optional background image of `typing_svg_frame`:
either no usable path was supplied (or the file does not exist), or the
file exists but `image_to_base64` failed, or it was read and embedded as a
data URI (whose payload we carry as markup). -/
inductive BgImage where
  | none
  | unreadable
  | readable (data : Markup)

/-- The `background` markup built at the top of `typing_svg_frame`. -/
def background (bg : BgImage) (overlay_opacity : Markup) : Markup :=
  match bg with
  | BgImage.none => str "<rect width=\"100%\" height=\"100%\" fill=\"#0f0f23\"/>"
  | BgImage.unreadable =>
      str "<rect width=\"100%\" height=\"100%\" fill=\"#1a1a2e\"/>" ++
      str "<rect width=\"100%\" height=\"100%\" fill=\"black\" fill-opacity=\"" ++
      overlay_opacity ++ str "\"/>"
  | BgImage.readable data =>
      str "<image href=\"" ++ data ++
      str "\" width=\"100%\" height=\"100%\" preserveAspectRatio=\"xMidYMid slice\"/>" ++
      str "<rect width=\"100%\" height=\"100%\" fill=\"black\" fill-opacity=\"" ++
      overlay_opacity ++ str "\"/>"

/-- `banner_height = 140`. -/
def banner_height : Nat := 140

/-- `banner_y = (VIDEO_HEIGHT - banner_height) // 2`. -/
def banner_y : Nat := (VIDEO_HEIGHT - banner_height) / 2

/-- `left_margin = 150`. -/
def left_margin : Nat := 150

/-- `text_y = VIDEO_HEIGHT // 2`. -/
def text_y : Nat := VIDEO_HEIGHT / 2

/-- The `banner_bg` f-string: note the stroke color is the hardcoded
literal `#00FF41`, not the `text_color` parameter. -/
def banner_bg : Markup :=
  str "<rect x=\"0\" y=\"" ++ natStr banner_y ++
  str "\" width=\"100%\" height=\"" ++ natStr banner_height ++
  str "\" fill=\"black\" fill-opacity=\"0.4\" stroke=\"#00FF41\" stroke-width=\"2\"/>"

/-- A banner rectangle whose stroke is a given accent color.  This follows
the spec's words ("a semi-transparent horizontal banner band ... bordered
in the accent color") and exists to be compared with the source's
`banner_bg`. -/
def banner_bg_spec (accent : Markup) : Markup :=
  str "<rect x=\"0\" y=\"" ++ natStr banner_y ++
  str "\" width=\"100%\" height=\"" ++ natStr banner_height ++
  str "\" fill=\"black\" fill-opacity=\"0.4\" stroke=\"" ++ accent ++
  str "\" stroke-width=\"2\"/>"

/-- Python prefix slice `text[:chars_visible]`: a nonnegative stop index
takes that many leading characters (overlong stops take the whole list); a
negative stop counts from the end of the list. -/
def visible_text (text : List Char) (chars_visible : Int) : List Char :=
  if 0 ≤ chars_visible then text.take chars_visible.toNat
  else text.take (text.length - (-chars_visible).toNat)

/-- `cursor = "█" if chars_visible < len(text) else ""`. -/
def cursor (text : List Char) (chars_visible : Int) : Markup :=
  if chars_visible < (text.length : Int) then str "█" else str ""

/-- `display_text = visible_text + cursor`. -/
def display_text (text : List Char) (chars_visible : Int) : Markup :=
  visible_text text chars_visible ++ cursor text chars_visible

/-- The left decoration f-string of `typing_svg_frame`. -/
def left_decoration (text_color : Markup) : Markup :=
  str "<text x=\"60\" y=\"" ++ natStr text_y ++
  str "\" font-family=\"Courier New, monospace\" font-size=\"48px\" fill=\"" ++
  text_color ++
  str "\" text-anchor=\"start\" dominant-baseline=\"middle\">►</text>"

/-- The right decoration f-string of `typing_svg_frame`. -/
def right_decoration (text_color : Markup) (right_x : Nat) : Markup :=
  str "<text x=\"" ++ natStr right_x ++ str "\" y=\"" ++ natStr text_y ++
  str "\" font-family=\"Courier New, monospace\" font-size=\"48px\" fill=\"" ++
  text_color ++
  str "\" text-anchor=\"start\" dominant-baseline=\"middle\">◄</text>"

/-- `decorative_elements`: left marker once `chars_visible > 0`, right
marker additionally once `chars_visible >= len(text)`; the right marker's
x position is `left_margin + len(visible_text) * 43 + 50`. -/
def decorative_elements (text : List Char) (chars_visible : Int)
    (text_color : Markup) : Markup :=
  if 0 < chars_visible then
    left_decoration text_color ++
      (if (text.length : Int) ≤ chars_visible then
        right_decoration text_color
          (left_margin + (visible_text text chars_visible).length * 43 + 50)
      else str "")
  else str ""

/-- The constant head of the SVG template: xml header, `<svg>` open tag
and the glow filter definition, up to the interpolation of `background`. -/
def svg_header : Markup :=
  str "<?xml version=\"1.0\" encoding=\"UTF-8\" standalone=\"no\"?>\n<svg xmlns=\"http://www.w3.org/2000/svg\" width=\"" ++
  natStr VIDEO_WIDTH ++ str "\" height=\"" ++ natStr VIDEO_HEIGHT ++
  str "\" viewBox=\"0 0 " ++ natStr VIDEO_WIDTH ++ str " " ++ natStr VIDEO_HEIGHT ++
  str "\">\n    <defs>\n        <filter id=\"glow\">\n            <feGaussianBlur stdDeviation=\"3\" result=\"coloredBlur\"/>\n            <feMerge> \n                <feMergeNode in=\"coloredBlur\"/>\n                <feMergeNode in=\"SourceGraphic\"/>\n            </feMerge>\n        </filter>\n    </defs>\n    "

/-- The `<text ...>` element's opening markup up to where `display_text`
is interpolated. -/
def text_element_open (text_color : Markup) : Markup :=
  str "<text x=\"" ++ natStr left_margin ++ str "\" y=\"" ++ natStr text_y ++
  str "\" \n          font-family=\"Courier New, Consolas, Monaco, monospace\" \n          font-size=\"" ++
  natStr FONT_SIZE ++ str "px\" \n          fill=\"" ++ text_color ++
  str "\" \n          text-anchor=\"start\" \n          dominant-baseline=\"middle\"\n          font-weight=\"bold\"\n          filter=\"url(#glow)\">\n        "

/-- The closing markup after `display_text`. -/
def text_element_close : Markup := str "\n    </text>\n</svg>"

/-- `typing_svg_frame(text, chars_visible, text_color, bg_image,
overlay_opacity)`: the full SVG markup of one frame.  The Python default
arguments are `text_color="#00FF41"` and `overlay_opacity=0.7`. -/
def typing_svg_frame (text : List Char) (chars_visible : Int)
    (text_color : Markup) (bg : BgImage) (overlay_opacity : Markup) : Markup :=
  svg_header ++ background bg overlay_opacity ++
  str "\n    " ++ banner_bg ++
  str "\n    " ++ decorative_elements text chars_visible text_color ++
  str "\n    " ++ text_element_open text_color ++
  display_text text chars_visible ++ text_element_close

/-- The frame the spec describes: identical to `typing_svg_frame` except
that the banner band is stroked in a caller-supplied accent color.  This
follows the spec's words and exists to be compared with the source. -/
def typing_svg_frame_spec (banner_accent : Markup) (text : List Char)
    (chars_visible : Int) (text_color : Markup) (bg : BgImage)
    (overlay_opacity : Markup) : Markup :=
  svg_header ++ background bg overlay_opacity ++
  str "\n    " ++ banner_bg_spec banner_accent ++
  str "\n    " ++ decorative_elements text chars_visible text_color ++
  str "\n    " ++ text_element_open text_color ++
  display_text text chars_visible ++ text_element_close

/-- `pause_frames = max(1, int(fps * 0.5))`; for a natural `fps`,
`int(fps * 0.5)` is `fps / 2` rounded toward zero. -/
def pause_frames (fps : Nat) : Nat := max 1 (fps / 2)

/-- The pause-frame loop of `typing_to_mp4`: `pause_frames` renders of the
frame with `chars_visible = 0`; the render of iteration `k` is kept
exactly when rasterization succeeds there (`pauseOk k`). -/
def rendered_pause_frames (text : List Char) (text_color : Markup)
    (bg : BgImage) (fps : Nat) (pauseOk : Nat → Bool) : List Markup :=
  (List.range (pause_frames fps)).filterMap fun k =>
    if pauseOk k then some (typing_svg_frame text 0 text_color bg (str "0.7"))
    else none

/-- The typing loop of `typing_to_mp4`: for `i` from 1 to `len(text)`, the
frame with `chars_visible = i` is kept exactly when rasterization succeeds
there (`typeOk i`); failures are skipped. -/
def rendered_typing_frames (text : List Char) (text_color : Markup)
    (bg : BgImage) (typeOk : Nat → Bool) : List Markup :=
  (List.range text.length).filterMap fun j =>
    if typeOk (j + 1) then
      some (typing_svg_frame text ((j : Int) + 1) text_color bg (str "0.7"))
    else none

/-- The final frame of `typing_to_mp4`: the frame at
`chars_visible = len(text)` with every occurrence of `█` removed
(`final_svg.replace("█", "")`). -/
def held_final_frame (text : List Char) (text_color : Markup)
    (bg : BgImage) : Markup :=
  (typing_svg_frame text (text.length : Int) text_color bg
    (str "0.7")).filter fun c => c != '█'

/-- `typing_to_mp4(text, output_file, fps, hold_end, bg_image, text_color)`
with rasterization oracles.  Mirrors the source: pause frames, then typing
frames; then the `if not frames: raise` emptiness check; then the final
frame (falling back to the last collected frame when its render fails)
appended `hold_end` times.  Encoding is external; on success the ordered
frame sequence and the output path are returned, and the raised exception's
message is returned as the error.  Python defaults: `fps=6`,
`hold_end=30`. -/
def typing_to_mp4 (text : List Char) (output_file : String)
    (fps hold_end : Nat) (bg : BgImage) (text_color : Markup)
    (pauseOk typeOk : Nat → Bool) (finalOk : Bool) :
    Except String (List Markup × String) :=
  let frames := rendered_pause_frames text text_color bg fps pauseOk ++
    rendered_typing_frames text text_color bg typeOk
  if frames = [] then Except.error "No frames were generated successfully"
  else
    let final_frame :=
      if finalOk then held_final_frame text text_color bg
      else frames.getLastD []
    Except.ok (frames ++ List.replicate hold_end final_frame, output_file)

/-! ### Helper lemmas: decimal digit lists never contain the special glyphs -/

/-- Every character produced by `Nat.digitChar` is a digit, a lowercase hex
letter, or the overflow star. -/
lemma digitChar_mem_set (m : Nat) :
    Nat.digitChar m ∈ str "0123456789abcdef*" := by
  rcases Nat.lt_or_ge m 16 with h | h
  · interval_cases m <;> decide
  · have h0 : m ≠ 0 := by omega
    have h1 : m ≠ 1 := by omega
    have h2 : m ≠ 2 := by omega
    have h3 : m ≠ 3 := by omega
    have h4 : m ≠ 4 := by omega
    have h5 : m ≠ 5 := by omega
    have h6 : m ≠ 6 := by omega
    have h7 : m ≠ 7 := by omega
    have h8 : m ≠ 8 := by omega
    have h9 : m ≠ 9 := by omega
    have ha : m ≠ 10 := by omega
    have hb : m ≠ 11 := by omega
    have hcc : m ≠ 12 := by omega
    have hd : m ≠ 13 := by omega
    have he : m ≠ 14 := by omega
    have hf : m ≠ 15 := by omega
    have hstar : Nat.digitChar m = '*' := by
      unfold Nat.digitChar
      simp [h0, h1, h2, h3, h4, h5, h6, h7, h8, h9, ha, hb, hcc, hd, he, hf]
    rw [hstar]
    decide

/-- Characters appearing in `Nat.toDigitsCore` output come from the
accumulator or from `Nat.digitChar`. -/
lemma mem_toDigitsCore {b : Nat} :
    ∀ (f n : Nat) (acc : List Char), ∀ c ∈ Nat.toDigitsCore b f n acc,
      c ∈ acc ∨ ∃ m, c = Nat.digitChar m := by
  intro f
  induction f with
  | zero =>
      intro n acc c hc
      exact Or.inl (by simpa [Nat.toDigitsCore] using hc)
  | succ f ih =>
      intro n acc c hc
      unfold Nat.toDigitsCore at hc
      dsimp only at hc
      split at hc
      · rcases List.mem_cons.mp hc with h | h
        · exact Or.inr ⟨n % b, h⟩
        · exact Or.inl h
      · rcases ih _ _ c hc with h | h
        · rcases List.mem_cons.mp h with h | h
          · exact Or.inr ⟨n % b, h⟩
          · exact Or.inl h
        · exact Or.inr h

/-- A character outside the digit alphabet never occurs in the decimal
rendering of a natural number. -/
lemma not_mem_natStr {c : Char} (hc : c ∉ str "0123456789abcdef*")
    (n : Nat) : c ∉ natStr n := by
  intro h
  rcases mem_toDigitsCore (b := 10) (n + 1) n [] c
      (by simpa [natStr, Nat.toDigits] using h) with h | ⟨m, rfl⟩
  · exact absurd h (List.not_mem_nil c)
  · exact hc (digitChar_mem_set m)

/-- The block cursor glyph never occurs in a rendered number. -/
lemma block_not_mem_natStr (n : Nat) : '█' ∉ natStr n :=
  not_mem_natStr (by decide) n

/-- The left marker glyph never occurs in a rendered number. -/
lemma lmark_not_mem_natStr (n : Nat) : '►' ∉ natStr n :=
  not_mem_natStr (by decide) n

/-- The right marker glyph never occurs in a rendered number. -/
lemma rmark_not_mem_natStr (n : Nat) : '◄' ∉ natStr n :=
  not_mem_natStr (by decide) n

/-! ### Helper lemmas: shapes of the render loops when rasterization
never fails -/

/-- With every rasterization succeeding, the pause loop yields
`pause_frames fps` copies of the `chars_visible = 0` frame. -/
lemma rendered_pause_frames_all (text : List Char) (color : Markup)
    (bg : BgImage) (fps : Nat) :
    rendered_pause_frames text color bg fps (fun _ => true)
      = List.replicate (pause_frames fps)
          (typing_svg_frame text 0 color bg (str "0.7")) := by
  unfold rendered_pause_frames
  rw [show (fun k => if (fun (_ : Nat) => true) k then
        some (typing_svg_frame text 0 color bg (str "0.7")) else none)
      = (some ∘ fun (_ : Nat) => typing_svg_frame text 0 color bg (str "0.7"))
      from rfl,
    List.filterMap_eq_map, List.map_const', List.length_range]

/-- With every rasterization succeeding, the typing loop yields one frame
per character, in order. -/
lemma rendered_typing_frames_all (text : List Char) (color : Markup)
    (bg : BgImage) :
    rendered_typing_frames text color bg (fun _ => true)
      = (List.range text.length).map
          (fun (j : Nat) => typing_svg_frame text ((j : Int) + 1) color bg (str "0.7")) := by
  unfold rendered_typing_frames
  rw [show (fun j => if (fun (_ : Nat) => true) (j + 1) then
        some (typing_svg_frame text ((j : Int) + 1) color bg (str "0.7")) else none)
      = (some ∘ fun (j : Nat) =>
          typing_svg_frame text ((j : Int) + 1) color bg (str "0.7"))
      from rfl,
    List.filterMap_eq_map
      (fun (j : Nat) => typing_svg_frame text ((j : Int) + 1) color bg (str "0.7"))]

/-- The pause loop never yields more than `pause_frames fps` frames, and
with every rasterization succeeding it yields exactly that many. -/
lemma length_rendered_pause_frames_all (text : List Char) (color : Markup)
    (bg : BgImage) (fps : Nat) :
    (rendered_pause_frames text color bg fps (fun _ => true)).length
      = pause_frames fps := by
  rw [rendered_pause_frames_all, List.length_replicate]

/-- One pause frame always survives under an all-true oracle, because
`pause_frames fps ≥ 1`. -/
lemma rendered_pause_frames_all_ne_nil (text : List Char) (color : Markup)
    (bg : BgImage) (fps : Nat) :
    rendered_pause_frames text color bg fps (fun _ => true) ≠ [] := by
  rw [rendered_pause_frames_all]
  have h : 1 ≤ pause_frames fps := le_max_left 1 (fps / 2)
  intro hnil
  rw [List.replicate_eq_nil_iff] at hnil
  omega

/-! ### Helper lemmas: which characters can occur where in a frame -/

/-- A character occurs in a frame exactly when it occurs in one of the
frame's constituent markup pieces. -/
lemma mem_typing_svg_frame_iff (c : Char) (text : List Char) (cv : Int)
    (color : Markup) (bg : BgImage) (op : Markup) :
    c ∈ typing_svg_frame text cv color bg op ↔
      c ∈ svg_header ∨ c ∈ background bg op ∨ c ∈ banner_bg ∨
      c ∈ decorative_elements text cv color ∨ c ∈ text_element_open color ∨
      c ∈ display_text text cv ∨ c ∈ text_element_close ∨
      c ∈ str "\n    " := by
  unfold typing_svg_frame
  simp only [List.mem_append]
  tauto

/-- Anything in the displayed text is in the frame. -/
lemma mem_frame_of_mem_display {c : Char} {text : List Char} {cv : Int}
    (color : Markup) (bg : BgImage) (op : Markup)
    (h : c ∈ display_text text cv) :
    c ∈ typing_svg_frame text cv color bg op :=
  (mem_typing_svg_frame_iff c text cv color bg op).mpr
    (Or.inr (Or.inr (Or.inr (Or.inr (Or.inr (Or.inl h))))))

/-- The cursor glyph does not occur in the left decoration when the text
color avoids it. -/
lemma block_not_mem_left_decoration (color : Markup)
    (hcolor : '█' ∉ color) : '█' ∉ left_decoration color := by
  unfold left_decoration
  intro h
  simp only [List.mem_append, or_assoc] at h
  rcases h with h | h | h | h | h <;>
    first
      | exact hcolor h
      | exact block_not_mem_natStr _ h
      | exact absurd h (by decide)

/-- The cursor glyph does not occur in the right decoration when the text
color avoids it. -/
lemma block_not_mem_right_decoration (color : Markup) (rx : Nat)
    (hcolor : '█' ∉ color) : '█' ∉ right_decoration color rx := by
  unfold right_decoration
  intro h
  simp only [List.mem_append, or_assoc] at h
  rcases h with h | h | h | h | h | h | h <;>
    first
      | exact hcolor h
      | exact block_not_mem_natStr _ h
      | exact absurd h (by decide)

/-- The cursor glyph never occurs among the decorative markers. -/
lemma block_not_mem_decorative (text : List Char) (cv : Int)
    (color : Markup) (hcolor : '█' ∉ color) :
    '█' ∉ decorative_elements text cv color := by
  unfold decorative_elements
  split
  · intro h
    simp only [List.mem_append, or_assoc] at h
    rcases h with h | h
    · exact block_not_mem_left_decoration color hcolor h
    · revert h
      split
      · intro h
        exact block_not_mem_right_decoration color _ hcolor h
      · intro h
        exact absurd h (by decide)
  · intro h
    exact absurd h (by decide)

/-- The cursor glyph does not occur in the text element's opening markup
when the text color avoids it. -/
lemma block_not_mem_text_element_open (color : Markup)
    (hcolor : '█' ∉ color) : '█' ∉ text_element_open color := by
  unfold text_element_open
  intro h
  simp only [List.mem_append, or_assoc] at h
  rcases h with h | h | h | h | h | h | h | h | h <;>
    first
      | exact hcolor h
      | exact block_not_mem_natStr _ h
      | exact absurd h (by decide)

/-- Casting a natural reveal count: the visible text is a plain prefix. -/
lemma visible_text_natCast (text : List Char) (vc : Nat) :
    visible_text text (vc : Int) = text.take vc := by
  unfold visible_text
  rw [if_pos (Int.natCast_nonneg vc), Int.toNat_natCast]

/-- Casting a natural reveal count in the cursor condition. -/
lemma cursor_natCast (text : List Char) (vc : Nat) :
    cursor text (vc : Int) = if vc < text.length then str "█" else str "" := by
  unfold cursor
  by_cases h : vc < text.length
  · rw [if_pos (by exact_mod_cast h), if_pos h]
  · rw [if_neg (by exact_mod_cast h), if_neg h]

/-- With every rasterization succeeding, the typing loop yields one frame
per character. -/
lemma length_rendered_typing_frames_all (text : List Char) (color : Markup)
    (bg : BgImage) :
    (rendered_typing_frames text color bg (fun _ => true)).length
      = text.length := by
  rw [rendered_typing_frames_all, List.length_map, List.length_range]

/-- Unfolding `typing_to_mp4` when at least one pause or typing frame was
collected: the result is those frames followed by `hold_end` copies of the
final frame. -/
lemma typing_to_mp4_ok (text : List Char) (out : String) (fps hold_end : Nat)
    (bg : BgImage) (color : Markup) (pauseOk typeOk : Nat → Bool)
    (finalOk : Bool)
    (hne : rendered_pause_frames text color bg fps pauseOk ++
      rendered_typing_frames text color bg typeOk ≠ []) :
    typing_to_mp4 text out fps hold_end bg color pauseOk typeOk finalOk
      = Except.ok ((rendered_pause_frames text color bg fps pauseOk ++
          rendered_typing_frames text color bg typeOk) ++
          List.replicate hold_end
            (if finalOk then held_final_frame text color bg
             else (rendered_pause_frames text color bg fps pauseOk ++
               rendered_typing_frames text color bg typeOk).getLastD []),
          out) := by
  simp only [typing_to_mp4]
  rw [if_neg hne]

/-! ### The claims -/

/-- C1: for every non-empty text of length `L`, when every per-frame
render succeeds, the frame sequence built by `typing_to_mp4` has length
`pause_frames + L + hold_frames`; the `fps = 6`, `hold = 30`, `"Hi!"`
instance is checked in the witness. -/
theorem spec_c1 (text : List Char) (out : String) (fps hold_end : Nat)
    (bg : BgImage) (color : Markup) (_h : text ≠ []) :
    ∃ fs, typing_to_mp4 text out fps hold_end bg color
        (fun _ => true) (fun _ => true) true = Except.ok (fs, out) ∧
      fs.length = pause_frames fps + text.length + hold_end := by
  have hne : rendered_pause_frames text color bg fps (fun _ => true) ++
      rendered_typing_frames text color bg (fun _ => true) ≠ [] := by
    intro hnil
    exact rendered_pause_frames_all_ne_nil text color bg fps
      (List.append_eq_nil.mp hnil).1
  refine ⟨_, typing_to_mp4_ok text out fps hold_end bg color
    (fun _ => true) (fun _ => true) true hne, ?_⟩
  rw [List.length_append, List.length_append,
    length_rendered_pause_frames_all, length_rendered_typing_frames_all,
    List.length_replicate]

/-- C1 witness: `"Hi!"` at `fps = 6` and `hold_end = 30` yields exactly
`pause_frames 6 + 3 + 30 = 36` frames. -/
theorem spec_c1_witness :
    ∃ fs, typing_to_mp4 (str "Hi!") "welcome.mp4" 6 30 BgImage.none
        (str "#00FF41") (fun _ => true) (fun _ => true) true
      = Except.ok (fs, "welcome.mp4") ∧ fs.length = 36 := by
  obtain ⟨fs, h1, h2⟩ := spec_c1 (str "Hi!") "welcome.mp4" 6 30
    BgImage.none (str "#00FF41") (by decide)
  exact ⟨fs, h1, by rw [h2]; rfl⟩

/-- C3 (amended): with every render succeeding, `typing_to_mp4` renders
exactly `max 1 (fps / 2)` pause frames at `visible_count = 0` before the
typing frames — the floor of `fps * 0.5` with a minimum of one, not the
ceiling the claim states. -/
theorem spec_c3 (text : List Char) (out : String) (fps hold_end : Nat)
    (bg : BgImage) (color : Markup) (_h : 0 < fps) :
    ∃ rest, typing_to_mp4 text out fps hold_end bg color
        (fun _ => true) (fun _ => true) true
      = Except.ok (List.replicate (max 1 (fps / 2))
          (typing_svg_frame text 0 color bg (str "0.7")) ++ rest, out) := by
  have hne : rendered_pause_frames text color bg fps (fun _ => true) ++
      rendered_typing_frames text color bg (fun _ => true) ≠ [] := by
    intro hnil
    exact rendered_pause_frames_all_ne_nil text color bg fps
      (List.append_eq_nil.mp hnil).1
  refine ⟨rendered_typing_frames text color bg (fun _ => true) ++
    List.replicate hold_end (held_final_frame text color bg), ?_⟩
  rw [typing_to_mp4_ok text out fps hold_end bg color
    (fun _ => true) (fun _ => true) true hne]
  rw [rendered_pause_frames_all, List.append_assoc]
  rfl

/-- C3 counterexample: at `fps = 5` the code renders `max 1 (5 / 2) = 2`
pause frames, not `ceil(5 * 0.5) = (5 + 1) / 2 = 3` as the claim states. -/
theorem spec_c3_counterexample :
    (rendered_pause_frames (str "Hi!") (str "#00FF41") BgImage.none 5
      (fun _ => true)).length = 2 ∧ (5 + 1) / 2 = 3 := by
  constructor
  · rw [length_rendered_pause_frames_all]
    rfl
  · rfl

/-- C3 witness: the amended statement at `fps = 5`. -/
theorem spec_c3_witness :
    ∃ rest, typing_to_mp4 (str "Hi!") "o.mp4" 5 30 BgImage.none
        (str "#00FF41") (fun _ => true) (fun _ => true) true
      = Except.ok (List.replicate (max 1 (5 / 2))
          (typing_svg_frame (str "Hi!") 0 (str "#00FF41") BgImage.none
            (str "0.7")) ++ rest, "o.mp4") :=
  spec_c3 (str "Hi!") "o.mp4" 5 30 BgImage.none (str "#00FF41") (by decide)

/-- C4 (amended): `typing_to_mp4` fails exactly when the pause and typing
steps (steps 1 and 2) produced zero frames; this emptiness check precedes
the final-hold step, which is therefore not attempted in that case. -/
theorem spec_c4 (text : List Char) (out : String) (fps hold_end : Nat)
    (bg : BgImage) (color : Markup) (pauseOk typeOk : Nat → Bool)
    (finalOk : Bool) :
    (∃ e, typing_to_mp4 text out fps hold_end bg color pauseOk typeOk finalOk
        = Except.error e) ↔
      rendered_pause_frames text color bg fps pauseOk = [] ∧
      rendered_typing_frames text color bg typeOk = [] := by
  constructor
  · rintro ⟨e, he⟩
    simp only [typing_to_mp4] at he
    by_cases hnil : rendered_pause_frames text color bg fps pauseOk ++
        rendered_typing_frames text color bg typeOk = []
    · exact List.append_eq_nil.mp hnil
    · rw [if_neg hnil] at he
      exact absurd he (by simp)
  · rintro ⟨h1, h2⟩
    refine ⟨"No frames were generated successfully", ?_⟩
    simp only [typing_to_mp4]
    rw [h1, h2]
    rfl

/-- C4 counterexample: with every pause and typing render failing but the
final render succeeding, the code raises at the emptiness check without
attempting the final hold — although the hold step, had it run as the
claim describes, would have contributed its 30 frames and the run would
not have been empty. -/
theorem spec_c4_counterexample :
    typing_to_mp4 (str "a") "out.mp4" 6 30 BgImage.none (str "#00FF41")
        (fun _ => false) (fun _ => false) true
      = Except.error "No frames were generated successfully" ∧
    (List.replicate 30 (held_final_frame (str "a") (str "#00FF41")
      BgImage.none)).length = 30 := by
  constructor
  · rfl
  · rw [List.length_replicate]

/-- C6: for any non-empty text, whatever typing-frame renders fail, the
produced frame count is at least `pause_frames + hold_frames` (the pause
renders are taken to succeed, as the claim presupposes; the hold frames
are appended unconditionally once any frame exists). -/
theorem spec_c6 (text : List Char) (out : String) (fps hold_end : Nat)
    (bg : BgImage) (color : Markup) (typeOk : Nat → Bool) (finalOk : Bool)
    (_h : 1 ≤ text.length) :
    ∃ fs, typing_to_mp4 text out fps hold_end bg color
        (fun _ => true) typeOk finalOk = Except.ok (fs, out) ∧
      pause_frames fps + hold_end ≤ fs.length := by
  have hne : rendered_pause_frames text color bg fps (fun _ => true) ++
      rendered_typing_frames text color bg typeOk ≠ [] := by
    intro hnil
    exact rendered_pause_frames_all_ne_nil text color bg fps
      (List.append_eq_nil.mp hnil).1
  refine ⟨_, typing_to_mp4_ok text out fps hold_end bg color
    (fun _ => true) typeOk finalOk hne, ?_⟩
  rw [List.length_append, List.length_append,
    length_rendered_pause_frames_all, List.length_replicate]
  omega

/-- C6 witness: every typing render fails, yet `"Hi!"` at `fps = 6`,
`hold_end = 30` still yields at least `pause_frames 6 + 30` frames. -/
theorem spec_c6_witness :
    ∃ fs, typing_to_mp4 (str "Hi!") "o.mp4" 6 30 BgImage.none
        (str "#00FF41") (fun _ => true) (fun _ => false) false
      = Except.ok (fs, "o.mp4") ∧ pause_frames 6 + 30 ≤ fs.length :=
  spec_c6 (str "Hi!") "o.mp4" 6 30 BgImage.none (str "#00FF41")
    (fun _ => false) false (by decide)

/-- The left marker glyph does not occur in the text element's opening
markup when the text color avoids it. -/
lemma lmark_not_mem_text_element_open (color : Markup)
    (hcolor : '►' ∉ color) : '►' ∉ text_element_open color := by
  unfold text_element_open
  intro h
  simp only [List.mem_append, or_assoc] at h
  rcases h with h | h | h | h | h | h | h | h | h <;>
    first
      | exact hcolor h
      | exact absurd h (by decide)

/-- The right marker glyph does not occur in the text element's opening
markup when the text color avoids it. -/
lemma rmark_not_mem_text_element_open (color : Markup)
    (hcolor : '◄' ∉ color) : '◄' ∉ text_element_open color := by
  unfold text_element_open
  intro h
  simp only [List.mem_append, or_assoc] at h
  rcases h with h | h | h | h | h | h | h | h | h <;>
    first
      | exact hcolor h
      | exact absurd h (by decide)

/-- The no-background branch ignores the overlay opacity. -/
lemma background_none (op : Markup) :
    background BgImage.none op
      = str "<rect width=\"100%\" height=\"100%\" fill=\"#0f0f23\"/>" := rfl

/-- C2: for `visible_count` in `[0, L]` (text, color and background free
of the literal cursor character), the rendered frame contains the block
cursor glyph exactly when `visible_count < L`; the frame rendered at
`visible_count = L` and the held final frame never contain it. -/
theorem spec_c2 (text : List Char) (color op : Markup) (bg : BgImage)
    (vc : Nat) (_hvc : vc ≤ text.length) (_hne : text ≠ [])
    (htext : '█' ∉ text) (hcolor : '█' ∉ color)
    (hbg : '█' ∉ background bg op) :
    ('█' ∈ typing_svg_frame text (vc : Int) color bg op ↔
      vc < text.length) ∧
    '█' ∉ held_final_frame text color bg := by
  constructor
  · constructor
    · intro hm
      rcases (mem_typing_svg_frame_iff '█' text (vc : Int) color bg op).mp hm
        with h | h | h | h | h | h | h | h
      · exact absurd h (by decide)
      · exact absurd h hbg
      · exact absurd h (by decide)
      · exact absurd h (block_not_mem_decorative text (vc : Int) color hcolor)
      · exact absurd h (block_not_mem_text_element_open color hcolor)
      · rcases List.mem_append.mp h with h | h
        · rw [visible_text_natCast] at h
          exact absurd (List.take_subset vc text h) htext
        · rw [cursor_natCast] at h
          by_cases hlt : vc < text.length
          · exact hlt
          · rw [if_neg hlt] at h
            exact absurd h (by decide)
      · exact absurd h (by decide)
      · exact absurd h (by decide)
    · intro hlt
      apply mem_frame_of_mem_display color bg op
      unfold display_text
      apply List.mem_append_right
      rw [cursor_natCast, if_pos hlt]
      decide
  · intro hm
    unfold held_final_frame at hm
    exact absurd (List.mem_filter.mp hm).2 (by decide)

/-- C2 witness: `"Hi!"` with one character revealed contains the cursor,
and the held final frame does not. -/
theorem spec_c2_witness :
    ('█' ∈ typing_svg_frame (str "Hi!") ((1 : Nat) : Int) (str "#00FF41")
        BgImage.none (str "0.7") ↔ (1 : Nat) < (str "Hi!").length) ∧
    '█' ∉ held_final_frame (str "Hi!") (str "#00FF41") BgImage.none :=
  spec_c2 (str "Hi!") (str "#00FF41") (str "0.7") BgImage.none 1
    (by decide) (by decide) (by decide) (by decide) (by decide)

/-- C5: at `visible_count = 0` the visible substring is empty, no
decorative marker markup is emitted, and neither marker glyph occurs
anywhere in the frame (text color avoiding the marker glyphs). -/
theorem spec_c5 (text : List Char) (color op : Markup) (hne : text ≠ [])
    (h1 : '►' ∉ color) (h2 : '◄' ∉ color) :
    visible_text text 0 = [] ∧ decorative_elements text 0 color = [] ∧
    '►' ∉ typing_svg_frame text 0 color BgImage.none op ∧
    '◄' ∉ typing_svg_frame text 0 color BgImage.none op := by
  have hvis : visible_text text 0 = [] := by
    unfold visible_text
    rw [if_pos le_rfl]
    rfl
  have hdec : decorative_elements text 0 color = [] := by
    unfold decorative_elements
    rw [if_neg (lt_irrefl 0)]
    rfl
  have hcur : cursor text 0 = str "█" := by
    unfold cursor
    rw [if_pos]
    exact_mod_cast List.length_pos.mpr hne
  refine ⟨hvis, hdec, ?_, ?_⟩
  · intro hm
    rcases (mem_typing_svg_frame_iff '►' text 0 color BgImage.none op).mp hm
      with h | h | h | h | h | h | h | h
    · exact absurd h (by decide)
    · rw [background_none] at h
      exact absurd h (by decide)
    · exact absurd h (by decide)
    · rw [hdec] at h
      exact absurd h (List.not_mem_nil '►')
    · exact absurd h (lmark_not_mem_text_element_open color h1)
    · unfold display_text at h
      rw [hvis, hcur] at h
      exact absurd h (by decide)
    · exact absurd h (by decide)
    · exact absurd h (by decide)
  · intro hm
    rcases (mem_typing_svg_frame_iff '◄' text 0 color BgImage.none op).mp hm
      with h | h | h | h | h | h | h | h
    · exact absurd h (by decide)
    · rw [background_none] at h
      exact absurd h (by decide)
    · exact absurd h (by decide)
    · rw [hdec] at h
      exact absurd h (List.not_mem_nil '◄')
    · exact absurd h (rmark_not_mem_text_element_open color h2)
    · unfold display_text at h
      rw [hvis, hcur] at h
      exact absurd h (by decide)
    · exact absurd h (by decide)
    · exact absurd h (by decide)

/-- C5 witness: the blank-banner frame for `"Hi!"`. -/
theorem spec_c5_witness :
    visible_text (str "Hi!") 0 = [] ∧
    decorative_elements (str "Hi!") 0 (str "#00FF41") = [] ∧
    '►' ∉ typing_svg_frame (str "Hi!") 0 (str "#00FF41") BgImage.none
      (str "0.7") ∧
    '◄' ∉ typing_svg_frame (str "Hi!") 0 (str "#00FF41") BgImage.none
      (str "0.7") :=
  spec_c5 (str "Hi!") (str "#00FF41") (str "0.7") (by decide) (by decide)
    (by decide)

/-- C7 (amended): the banner band of every rendered frame is stroked in
the fixed literal `#00FF41`, regardless of the supplied `text_color`; it
matches the spec's accent-stroked banner only for that one color. -/
theorem spec_c7 (text : List Char) (cv : Int) (color : Markup)
    (bg : BgImage) (op : Markup) :
    typing_svg_frame text cv color bg op
      = typing_svg_frame_spec (str "#00FF41") text cv color bg op := by
  unfold typing_svg_frame typing_svg_frame_spec
  rw [show banner_bg = banner_bg_spec (str "#00FF41") from by decide]

set_option maxRecDepth 100000 in
/-- C7 counterexample: with accent color `#009DFF`, the banner markup is
not the accent-stroked banner, and the rendered frame differs from the
frame whose banner band is bordered in the accent color. -/
theorem spec_c7_counterexample :
    banner_bg ≠ banner_bg_spec (str "#009DFF") ∧
    typing_svg_frame (str "Hi!") 1 (str "#009DFF") BgImage.none (str "0.7")
      ≠ typing_svg_frame_spec (str "#009DFF") (str "Hi!") 1 (str "#009DFF")
          BgImage.none (str "0.7") := by
  constructor
  · decide
  · decide

/-- C8 (amended): for `visible_count ≥ 0` the frame equals the frame with
`visible_count` clamped to at most `L` (values above `L` behave as `L`);
for negative `visible_count` the clamping claim fails, because the Python
slice `text[:chars_visible]` counts a negative stop from the end. -/
theorem spec_c8 (text : List Char) (color : Markup) (bg : BgImage)
    (op : Markup) (vc : Int) (hL : 1 ≤ text.length) (hvc : 0 ≤ vc) :
    typing_svg_frame text vc color bg op
      = typing_svg_frame text (min vc (text.length : Int)) color bg op := by
  rcases le_or_lt vc (text.length : Int) with hle | hgt
  · rw [min_eq_left hle]
  · rw [min_eq_right (le_of_lt hgt)]
    have hv : visible_text text vc = visible_text text (text.length : Int) := by
      unfold visible_text
      rw [if_pos hvc, if_pos (Int.natCast_nonneg _), Int.toNat_natCast,
        List.take_length]
      apply List.take_of_length_le
      omega
    have hcur : cursor text vc = cursor text (text.length : Int) := by
      unfold cursor
      rw [if_neg (by omega), if_neg (by omega)]
    have hdec : decorative_elements text vc color
        = decorative_elements text (text.length : Int) color := by
      unfold decorative_elements
      rw [if_pos (show (0 : Int) < vc by omega),
        if_pos (le_of_lt hgt),
        if_pos (show (0 : Int) < (text.length : Int) by omega),
        if_pos (le_refl (text.length : Int)), hv]
    unfold typing_svg_frame display_text
    rw [hv, hcur, hdec]

/-- C8 witness: `"Hi!"` with an over-long reveal count renders as with
the count clamped to the text length. -/
theorem spec_c8_witness :
    typing_svg_frame (str "Hi!") 5 (str "#00FF41") BgImage.none (str "0.7")
      = typing_svg_frame (str "Hi!") (min 5 ((str "Hi!").length : Int))
          (str "#00FF41") BgImage.none (str "0.7") :=
  spec_c8 (str "Hi!") (str "#00FF41") BgImage.none (str "0.7") 5
    (by decide) (by decide)

set_option maxRecDepth 100000 in
/-- C8 counterexample: at `visible_count = -1` on `"ab"` the frame shows
the slice `"a"` (Python counts the stop from the end), so it differs from
the frame at the clamped value `0`. -/
theorem spec_c8_counterexample :
    typing_svg_frame (str "ab") (-1) (str "#00FF41") BgImage.none
        (str "0.7")
      ≠ typing_svg_frame (str "ab") 0 (str "#00FF41") BgImage.none
          (str "0.7") := by
  decide

/-- C9: the held final frame deletes every occurrence of the block
character from the markup of the completed frame, so a text containing
`█` loses those characters in the held frame while the last typing frame
still shows them. -/
theorem spec_c9 (text : List Char) (color : Markup) (bg : BgImage)
    (h : '█' ∈ text) :
    '█' ∉ held_final_frame text color bg ∧
    '█' ∈ typing_svg_frame text (text.length : Int) color bg (str "0.7") := by
  constructor
  · intro hm
    unfold held_final_frame at hm
    exact absurd (List.mem_filter.mp hm).2 (by decide)
  · apply mem_frame_of_mem_display color bg (str "0.7")
    unfold display_text
    apply List.mem_append_left
    have hv : visible_text text (text.length : Int) = text := by
      unfold visible_text
      rw [if_pos (Int.natCast_nonneg _), Int.toNat_natCast, List.take_length]
    rw [hv]
    exact h

/-- C9 witness: the text `"a█"`. -/
theorem spec_c9_witness :
    '█' ∉ held_final_frame (str "a█") (str "#00FF41") BgImage.none ∧
    '█' ∈ typing_svg_frame (str "a█") (((str "a█").length : Nat) : Int)
      (str "#00FF41") BgImage.none (str "0.7") :=
  spec_c9 (str "a█") (str "#00FF41") BgImage.none (by decide)

/-- In the frame of the empty text at reveal count `0` (no decorations,
no visible text, no cursor since `0 < 0` fails), a character occurs only
through the template constants or the text color. -/
lemma empty_frame_clean (color op : Markup) (c : Char) (_hc : c ∉ color)
    (hhead : c ∉ svg_header) (hbg : c ∉ background BgImage.none op)
    (hban : c ∉ banner_bg) (hopen : c ∉ text_element_open color)
    (hclose : c ∉ text_element_close) (hsep : c ∉ str "\n    ") :
    c ∉ typing_svg_frame [] 0 color BgImage.none op := by
  intro hm
  rcases (mem_typing_svg_frame_iff c [] 0 color BgImage.none op).mp hm
    with h | h | h | h | h | h | h | h
  · exact hhead h
  · exact hbg h
  · exact hban h
  · revert h
    unfold decorative_elements
    rw [if_neg (lt_irrefl 0)]
    exact List.not_mem_nil c
  · exact hopen h
  · revert h
    unfold display_text visible_text cursor
    rw [if_pos le_rfl, if_neg (by decide : ¬ ((0 : Int) < (([] : List Char).length : Int)))]
    exact List.not_mem_nil c
  · exact hclose h
  · exact hsep h

/-- C10: on the empty text with every render succeeding, `typing_to_mp4`
does not fail: it returns the output path with exactly
`pause_frames + hold` frames, none of which contains the cursor glyph or
either decorative marker. -/
theorem spec_c10 (out : String) (fps hold_end : Nat) (color : Markup)
    (h1 : '█' ∉ color) (h2 : '►' ∉ color) (h3 : '◄' ∉ color) :
    ∃ fs, typing_to_mp4 [] out fps hold_end BgImage.none color
        (fun _ => true) (fun _ => true) true = Except.ok (fs, out) ∧
      fs.length = pause_frames fps + hold_end ∧
      ∀ f ∈ fs, '█' ∉ f ∧ '►' ∉ f ∧ '◄' ∉ f := by
  have hne : rendered_pause_frames [] color BgImage.none fps
      (fun _ => true) ++
      rendered_typing_frames [] color BgImage.none (fun _ => true) ≠ [] := by
    intro hnil
    exact rendered_pause_frames_all_ne_nil [] color BgImage.none fps
      (List.append_eq_nil.mp hnil).1
  refine ⟨_, typing_to_mp4_ok [] out fps hold_end BgImage.none color
    (fun _ => true) (fun _ => true) true hne, ?_, ?_⟩
  · rw [List.length_append, List.length_append,
      length_rendered_pause_frames_all, length_rendered_typing_frames_all,
      List.length_replicate]
    simp
  · have hf0B : '█' ∉ typing_svg_frame [] 0 color BgImage.none (str "0.7") :=
      empty_frame_clean color (str "0.7") '█' h1 (by decide) (by decide)
        (by decide) (block_not_mem_text_element_open color h1) (by decide)
        (by decide)
    have hf0L : '►' ∉ typing_svg_frame [] 0 color BgImage.none (str "0.7") :=
      empty_frame_clean color (str "0.7") '►' h2 (by decide) (by decide)
        (by decide) (lmark_not_mem_text_element_open color h2) (by decide)
        (by decide)
    have hf0R : '◄' ∉ typing_svg_frame [] 0 color BgImage.none (str "0.7") :=
      empty_frame_clean color (str "0.7") '◄' h3 (by decide) (by decide)
        (by decide) (rmark_not_mem_text_element_open color h3) (by decide)
        (by decide)
    have hheldB : '█' ∉ held_final_frame [] color BgImage.none := by
      intro hm
      exact absurd (List.mem_filter.mp hm).2 (by decide)
    have hheldL : '►' ∉ held_final_frame [] color BgImage.none := by
      intro hm
      exact hf0L (List.mem_filter.mp hm).1
    have hheldR : '◄' ∉ held_final_frame [] color BgImage.none := by
      intro hm
      exact hf0R (List.mem_filter.mp hm).1
    intro f hf
    rcases List.mem_append.mp hf with hf | hf
    · rcases List.mem_append.mp hf with hf | hf
      · rw [rendered_pause_frames_all] at hf
        have hfe := List.eq_of_mem_replicate hf
        rw [hfe]
        exact ⟨hf0B, hf0L, hf0R⟩
      · rw [show rendered_typing_frames [] color BgImage.none
            (fun _ => true) = [] from rfl] at hf
        exact absurd hf (List.not_mem_nil f)
    · have hfe := List.eq_of_mem_replicate hf
      rw [hfe]
      exact ⟨hheldB, hheldL, hheldR⟩

/-- C10 witness: the empty text at `fps = 6`, `hold_end = 30` with the
default color. -/
theorem spec_c10_witness :
    ∃ fs, typing_to_mp4 [] "o.mp4" 6 30 BgImage.none (str "#00FF41")
        (fun _ => true) (fun _ => true) true = Except.ok (fs, "o.mp4") ∧
      fs.length = pause_frames 6 + 30 ∧
      ∀ f ∈ fs, '█' ∉ f ∧ '►' ∉ f ∧ '◄' ∉ f :=
  spec_c10 "o.mp4" 6 30 (str "#00FF41") (by decide) (by decide) (by decide)

end TCorpion
